import Mathlib

/-!
Shallow embedding of `install.py` from the `install-wasi-sk` repository:
a tool that installs a release of the WASI SDK by resolving a version
string to a release tag, computing a download URL, extracting an archive
with the top path component stripped, and appending lines to CI files.

Python string primitives used by the script are embedded first, then the
script's functions, keeping their names.  Effectful functions (the CI
exporters and the export phase of `main`) are embedded as explicit state
passing over the three CI files, with Python exceptions as an error type.
-/

namespace InstallWasiSdk

/-- Python `str.rstrip(chars)`: remove from the right end every character
that belongs to `chars`, stopping at the first character that does not. -/
def pyRstrip (s : String) (chars : List Char) : String :=
  ⟨(s.data.reverse.dropWhile (fun c => c ∈ chars)).reverse⟩

/-- ASCII lowercasing of one character, as Python `str.lower` acts on the
ASCII range (the only range the script's OS and arch strings use). -/
def asciiLower (c : Char) : Char :=
  if 'A' ≤ c ∧ c ≤ 'Z' then Char.ofNat (c.toNat + 32) else c

/-- Python `str.lower` restricted to ASCII. -/
def pyLower (s : String) : String :=
  ⟨s.data.map asciiLower⟩

/-- Worker for Python `str.replace(old, new)` on character lists: scan
left to right, replacing every nonoverlapping occurrence of `old`.  The
fuel argument makes the recursion structural; every step consumes at
least one character while spending exactly one unit of fuel, so starting
the fuel at the length of the scanned list (as `pyReplaceList` does)
keeps the invariant `length ≤ fuel` and the fuel-exhausted branch is
never reached. -/
def pyReplaceCore (old new : List Char) : Nat → List Char → List Char
  | _, [] => []
  | 0, s => s
  | fuel + 1, c :: rest =>
    if old ≠ [] ∧ old.isPrefixOf (c :: rest) then
      new ++ pyReplaceCore old new fuel (rest.drop (old.length - 1))
    else
      c :: pyReplaceCore old new fuel rest

/-- Python `str.replace(old, new)` for a nonempty `old`, on character
lists. -/
def pyReplaceList (old new s : List Char) : List Char :=
  pyReplaceCore old new s.length s

/-- Python `str.replace(old, new)` on strings (nonempty `old`). -/
def pyReplace (s old new : String) : String :=
  ⟨pyReplaceList old.data new.data s.data⟩

/-- `calculate_version_and_tag` from `install.py`, with the value that
`retrieve_latest_tag()` would fetch from the network passed in as the
parameter `latestTag`.  Mirrors the Python line by line:
`version.rstrip('.0')`, `tag.replace('wasi-sdk-', '')`, and the final
`if '.' not in version: version = f'{version}.0'`. -/
def calculate_version_and_tag (latestTag : String) (version : String) :
    String × String :=
  let (version, tag) :=
    if version = "latest" then
      let tag := latestTag
      (pyReplace tag "wasi-sdk-" "", tag)
    else
      let stripped := pyRstrip version ['.', '0']
      (version, "wasi-sdk-" ++ stripped)
  let version := if '.' ∈ version.data then version else version ++ ".0"
  (version, tag)

/-- `calculate_artifact_url` from `install.py`. -/
def calculate_artifact_url (version tag arch os : String) : String :=
  let base := "https://github.com/WebAssembly/wasi-sdk/releases/download"
  let os := if os = "Darwin" then "macos" else pyLower os
  let arch := if pyLower arch = "amd64" then "x86_64" else arch
  base ++ "/" ++ tag ++ "/wasi-sdk-" ++ version ++ "-" ++ arch ++ "-" ++
    os ++ ".tar.gz"

/-- Python `str.split(sep)` for a one-character separator, on character
lists: always at least one (possibly empty) segment, and empty segments
between, before, or after adjacent separators are kept, exactly as
Python's `'a/b'.split('/')` behaves. -/
def pySplitChar (sep : Char) : List Char → List (List Char)
  | [] => [[]]
  | c :: rest =>
    match pySplitChar sep rest with
    | [] => []
    | seg :: segs =>
      if c = sep then [] :: seg :: segs else (c :: seg) :: segs

/-- Python `sep.join(parts)` for a one-character separator. -/
def joinSep (sep : Char) : List (List Char) → List Char
  | [] => []
  | [seg] => seg
  | seg :: segs => seg ++ sep :: joinSep sep segs

/-- The renaming applied to one archive member inside `install`'s
extraction loop: split the name on `'/'`; when there is more than one
segment, rejoin all but the first (Python's
`member.name = '/'.join(parts[1:])`) and extract under that name;
otherwise skip the member (`none`). -/
def stripFirstComponent (name : String) : Option String :=
  let parts := pySplitChar '/' name.data
  if parts.length > 1 then some ⟨joinSep '/' (parts.drop 1)⟩
  else none

/-- The names under which `install` extracts the members of the archive,
in order, given the member names returned by `tar.getmembers()`. -/
def extract_names (members : List String) : List String :=
  members.filterMap stripFirstComponent

/-- Python `posixpath.dirname`: the prefix up to the last `'/'`, with
trailing slashes removed unless the prefix is entirely slashes. -/
def pyDirname (p : String) : String :=
  let head := (p.data.reverse.dropWhile (fun c => c ≠ '/')).reverse
  if head ≠ [] ∧ head.any (fun c => c ≠ '/') then
    ⟨(head.reverse.dropWhile (fun c => c = '/')).reverse⟩
  else ⟨head⟩

/-- The contents of the three CI files the script can append to, keyed by
the role of the environment variable that names each file. -/
structure CIFiles where
  pathFile : String
  envFile : String
  outputFile : String
deriving DecidableEq, Repr

/-- A process environment, as an association list (later bindings are
shadowed by earlier ones, which never matters here). -/
abbrev EnvT := List (String × String)

/-- Python `os.environ[k]` / `k in os.environ`, as an optional lookup. -/
def getEnv (env : EnvT) (k : String) : Option String :=
  (env.find? (fun p => p.1 == k)).map (fun p => p.2)

/-- The Python exceptions the embedded fragment can raise. -/
inductive PyErr where
  | assertionError (msg : String)
  | keyError (key : String)
deriving DecidableEq, Repr

/-- Whether a call returned normally or raised an exception. -/
inductive PyOutcome where
  | ok
  | raised (e : PyErr)
deriving DecidableEq, Repr

/-- The four `KEY=value` lines `write_github_path` appends to the
`GITHUB_ENV` file, each written with a trailing `'\n'` in the source. -/
def github_env_lines (install_dir version clang_path sysroot_path :
    String) : List String :=
  ["WASI_SDK_PATH=" ++ install_dir ++ "\n",
   "WASI_SDK_VERSION=" ++ version ++ "\n",
   "CC=" ++ clang_path ++ " --sysroot=" ++ sysroot_path ++ "\n",
   "CXX=" ++ clang_path ++ "++ --sysroot=" ++ sysroot_path ++ "\n"]

/-- The four `key=value` lines `write_github_output` appends to the
`GITHUB_OUTPUT` file, each written with a trailing `'\n'` in the source. -/
def github_output_lines (install_dir version clang_path sysroot_path :
    String) : List String :=
  ["wasi-sdk-path=" ++ install_dir ++ "\n",
   "wasi-sdk-version=" ++ version ++ "\n",
   "clang-path=" ++ clang_path ++ "\n",
   "sysroot-path=" ++ sysroot_path ++ "\n"]

/-- `write_github_path` from `install.py` as a state transformer on the
CI files.  It `assert`s that `GITHUB_PATH` is in the environment, appends
`os.path.dirname(clang_path)` (no newline) to the path file, then reads
`os.environ['GITHUB_ENV']` with no check — a missing `GITHUB_ENV` raises
`KeyError` after the path file has already been written — and appends the
four env lines to the env file. -/
def write_github_path (env : EnvT)
    (install_dir version clang_path sysroot_path : String)
    (st : CIFiles) : PyOutcome × CIFiles :=
  match getEnv env "GITHUB_PATH" with
  | none =>
    (.raised (.assertionError "GITHUB_PATH environment variable must be set"),
     st)
  | some _ =>
    let st := { st with pathFile := st.pathFile ++ pyDirname clang_path }
    match getEnv env "GITHUB_ENV" with
    | none => (.raised (.keyError "GITHUB_ENV"), st)
    | some _ =>
      (.ok,
       { st with envFile := st.envFile ++
          String.join (github_env_lines install_dir version clang_path
            sysroot_path) })

/-- `write_github_output` from `install.py` as a state transformer on the
CI files: `assert`s that `GITHUB_OUTPUT` is set, then appends the four
output lines to the output file. -/
def write_github_output (env : EnvT)
    (install_dir version clang_path sysroot_path : String)
    (st : CIFiles) : PyOutcome × CIFiles :=
  match getEnv env "GITHUB_OUTPUT" with
  | none =>
    (.raised (.assertionError "GITHUB_OUTPUT environment variable must be set"),
     st)
  | some _ =>
    (.ok,
     { st with outputFile := st.outputFile ++
        String.join (github_output_lines install_dir version clang_path
          sysroot_path) })

/-- The CI-export phase at the end of `main` in `install.py`:
`if add_to_path: write_github_path(...)` followed by
`if 'GITHUB_OUTPUT' in os.environ: write_github_output(...)`.  An
exception raised by the first call propagates, skipping the second. -/
def main_ci_exports (add_to_path : Bool) (env : EnvT)
    (install_dir version clang_path sysroot_path : String)
    (st : CIFiles) : PyOutcome × CIFiles :=
  let (r, st) :=
    if add_to_path then
      write_github_path env install_dir version clang_path sysroot_path st
    else (.ok, st)
  match r with
  | .raised e => (.raised e, st)
  | .ok =>
    if (getEnv env "GITHUB_OUTPUT").isSome then
      write_github_output env install_dir version clang_path sysroot_path st
    else (.ok, st)

/-- The URL builder exactly as §8 of the specification words it
("OS 'Darwin' maps to 'macos', all others lowercased; architecture
'amd64' maps to 'x86_64', all others unchanged"): the architecture is
compared to `"amd64"` literally, without lowercasing first.  Written to
be compared with `calculate_artifact_url` from the source. -/
def spec_artifact_url (version tag arch os : String) : String :=
  let os := if os = "Darwin" then "macos" else pyLower os
  let arch := if arch = "amd64" then "x86_64" else arch
  "https://github.com/WebAssembly/wasi-sdk/releases/download" ++ "/" ++
    tag ++ "/wasi-sdk-" ++ version ++ "-" ++ arch ++ "-" ++ os ++ ".tar.gz"

/-- Whether `pat` occurs as a contiguous substring of `s` (decidably,
by checking every starting position). -/
def hasOccurrence (pat s : List Char) : Bool :=
  (List.range (s.length + 1)).any (fun i => pat.isPrefixOf (s.drop i))

/-! ## Helper lemmas -/

/-- A list is a `isPrefixOf`-prefix of itself followed by anything. -/
theorem isPrefixOf_append_self : ∀ (l r : List Char),
    l.isPrefixOf (l ++ r) = true
  | [], _ => by simp [List.isPrefixOf]
  | c :: l, r => by
    simp only [List.cons_append, List.isPrefixOf_cons₂_self]
    exact isPrefixOf_append_self l r

/-- `pyReplaceCore` on the empty list, for any fuel. -/
theorem pyReplaceCore_nil_list (old new : List Char) (fuel : Nat) :
    pyReplaceCore old new fuel [] = [] := by
  cases fuel <;> rfl

/-- Unfolding `pyReplaceCore` on a cons with positive fuel. -/
theorem pyReplaceCore_succ_cons (old new : List Char) (fuel : Nat)
    (c : Char) (rest : List Char) :
    pyReplaceCore old new (fuel + 1) (c :: rest) =
      if old ≠ [] ∧ old.isPrefixOf (c :: rest) then
        new ++ pyReplaceCore old new fuel (rest.drop (old.length - 1))
      else
        c :: pyReplaceCore old new fuel rest := rfl

/-- The result of `pyReplaceCore` does not depend on the fuel, as long
as the fuel covers the length of the scanned list. -/
theorem pyReplaceCore_fuel_irrel (old new : List Char) :
    ∀ (f₁ : Nat) (s : List Char) (f₂ : Nat), s.length ≤ f₁ →
      s.length ≤ f₂ → pyReplaceCore old new f₁ s = pyReplaceCore old new f₂ s
  | _, [], f₂, _, _ => by
    rw [pyReplaceCore_nil_list, pyReplaceCore_nil_list]
  | 0, c :: rest, _, h₁, _ => by
    exact absurd h₁ (by simp)
  | g + 1, c :: rest, f₂, h₁, h₂ => by
    obtain ⟨h, rfl⟩ : ∃ h, f₂ = h + 1 := by
      cases f₂ with
      | zero => exact absurd h₂ (by simp)
      | succ h => exact ⟨h, rfl⟩
    rw [pyReplaceCore_succ_cons, pyReplaceCore_succ_cons]
    simp only [List.length_cons] at h₁ h₂
    have hg : rest.length ≤ g := Nat.le_of_succ_le_succ h₁
    have hh : rest.length ≤ h := Nat.le_of_succ_le_succ h₂
    by_cases hc : old ≠ [] ∧ old.isPrefixOf (c :: rest)
    · rw [if_pos hc, if_pos hc]
      have hd : (rest.drop (old.length - 1)).length ≤ rest.length := by
        rw [List.length_drop]
        omega
      rw [pyReplaceCore_fuel_irrel old new g (rest.drop (old.length - 1)) h
        (Nat.le_trans hd hg) (Nat.le_trans hd hh)]
    · rw [if_neg hc, if_neg hc]
      rw [pyReplaceCore_fuel_irrel old new g rest h hg hh]

/-- If `pat` starts at no position of `s`, replacing leaves `s` alone
(for any amount of fuel). -/
theorem pyReplaceCore_of_no_occurrence (pat new : List Char) :
    ∀ (fuel : Nat) (s : List Char),
      (∀ i, ¬ pat.isPrefixOf (s.drop i) = true) →
      pyReplaceCore pat new fuel s = s
  | fuel, [], _ => pyReplaceCore_nil_list pat new fuel
  | 0, c :: rest, _ => by cases pat <;> rfl
  | fuel + 1, c :: rest, h => by
    rw [pyReplaceCore_succ_cons]
    rw [if_neg (fun hc => h 0 hc.2)]
    rw [pyReplaceCore_of_no_occurrence pat new fuel rest (fun i => h (i + 1))]

/-- If `pat` starts at no position of `s`, replacing leaves `s` alone. -/
theorem pyReplaceList_of_no_occurrence (pat new s : List Char)
    (h : ∀ i, ¬ pat.isPrefixOf (s.drop i) = true) :
    pyReplaceList pat new s = s :=
  pyReplaceCore_of_no_occurrence pat new s.length s h

/-- Replacing consumes a leading occurrence of the (nonempty) pattern. -/
theorem pyReplaceList_cons_occurrence (pat new rest : List Char)
    (hne : pat ≠ []) :
    pyReplaceList pat new (pat ++ rest) =
      new ++ pyReplaceList pat new rest := by
  obtain ⟨p, ps, rfl⟩ : ∃ p ps, pat = p :: ps := by
    cases pat with
    | nil => exact absurd rfl hne
    | cons p ps => exact ⟨p, ps, rfl⟩
  have h1 : (p :: ps) ++ rest = p :: (ps ++ rest) := rfl
  unfold pyReplaceList
  rw [h1, List.length_cons, pyReplaceCore_succ_cons]
  rw [if_pos ⟨hne, isPrefixOf_append_self (p :: ps) rest⟩]
  have e2 : (ps ++ rest).drop ((p :: ps).length - 1) = rest := by
    simp only [List.length_cons, Nat.add_sub_cancel]
    exact List.drop_left ps rest
  rw [e2]
  congr 1
  exact pyReplaceCore_fuel_irrel (p :: ps) new (ps ++ rest).length rest
    rest.length (by simp) (Nat.le_refl _)

/-- The bounded occurrence check implies absence at every position. -/
theorem no_occurrence_of_hasOccurrence_false (pat s : List Char)
    (hne : pat ≠ []) (h : hasOccurrence pat s = false) :
    ∀ i, ¬ pat.isPrefixOf (s.drop i) = true := by
  intro i hp
  by_cases hi : i ≤ s.length
  · have hmem : i ∈ List.range (s.length + 1) :=
      List.mem_range.mpr (Nat.lt_succ_of_le hi)
    have htrue : hasOccurrence pat s = true := by
      unfold hasOccurrence
      exact List.any_eq_true.mpr ⟨i, hmem, hp⟩
    rw [h] at htrue
    exact Bool.false_ne_true htrue
  · rw [List.drop_eq_nil_of_le (Nat.le_of_not_le hi)] at hp
    cases pat with
    | nil => exact hne rfl
    | cons p ps => simp [List.isPrefixOf] at hp

/-- Unfolding `calculate_version_and_tag` on a version other than
`"latest"`. -/
theorem calc_nonlatest (latestTag version : String)
    (hne : version ≠ "latest") :
    calculate_version_and_tag latestTag version =
      ((if '.' ∈ version.data then version else version ++ ".0"),
       "wasi-sdk-" ++ pyRstrip version ['.', '0']) := by
  unfold calculate_version_and_tag
  rw [if_neg hne]

/-- The version component returned for a non-`"latest"` input always
contains a `'.'` character. -/
theorem dot_mem_calc_version (latestTag version : String)
    (hne : version ≠ "latest") :
    '.' ∈ ((calculate_version_and_tag latestTag version).1).data := by
  rw [calc_nonlatest latestTag version hne]
  dsimp only
  by_cases h : '.' ∈ version.data
  · rw [if_pos h]; exact h
  · rw [if_neg h, String.data_append]
    exact List.mem_append_right _ (by decide)

/-- Unfolding `calculate_version_and_tag` on the input `"latest"`. -/
theorem calc_latest_eq (latestTag : String) :
    calculate_version_and_tag latestTag "latest" =
      ((if '.' ∈ (pyReplace latestTag "wasi-sdk-" "").data
        then pyReplace latestTag "wasi-sdk-" ""
        else pyReplace latestTag "wasi-sdk-" "" ++ ".0"), latestTag) := by
  unfold calculate_version_and_tag
  rw [if_pos rfl]

/-! ## Claim theorems -/

/-- C1: the claim states that for every version other than `"latest"` the
tag is the version with only a trailing `".0"` suffix removed, prefixed
by `"wasi-sdk-"`.  The code instead uses `version.rstrip('.0')`, which
removes ALL trailing `'.'` and `'0'` characters: on input `"20"` it
produces tag `"wasi-sdk-2"` where the claim requires `"wasi-sdk-20"`.
This theorem evaluates the embedded code at that failing input. -/
theorem c1_rstrip_bug_at_20 : ∀ latestTag : String,
    calculate_version_and_tag latestTag "20" = ("20.0", "wasi-sdk-2") ∧
    ("wasi-sdk-2" : String) ≠ "wasi-sdk-20" := by
  intro t
  refine ⟨?_, by decide⟩
  rw [calc_nonlatest t "20" (by decide)]
  decide

/-- C4, counterexample: the claim states that every architecture string
other than `"amd64"` is left unchanged.  The code compares
`arch.lower() == 'amd64'`, so the architecture string `"AMD64"` (the
value `platform.machine()` reports on Windows) is also mapped to
`"x86_64"`, where the claim requires it to pass through unchanged (as
`spec_artifact_url`, worded exactly as the spec, does). -/
theorem c4_counterexample :
    calculate_artifact_url "25.0" "wasi-sdk-25" "AMD64" "Linux" ≠
      spec_artifact_url "25.0" "wasi-sdk-25" "AMD64" "Linux" ∧
    calculate_artifact_url "25.0" "wasi-sdk-25" "AMD64" "Linux" =
      "https://github.com/WebAssembly/wasi-sdk/releases/download/wasi-sdk-25/wasi-sdk-25.0-x86_64-linux.tar.gz" ∧
    spec_artifact_url "25.0" "wasi-sdk-25" "AMD64" "Linux" =
      "https://github.com/WebAssembly/wasi-sdk/releases/download/wasi-sdk-25/wasi-sdk-25.0-AMD64-linux.tar.gz" := by
  decide

/-- C4 (amended): `calculate_artifact_url` is a pure function of
`(version, tag, arch, os)`; it maps OS `"Darwin"` to `"macos"` and
lowercases every other OS string; it maps every architecture string
whose ASCII lowercasing equals `"amd64"` to `"x86_64"` and leaves every
other architecture string unchanged — so it agrees with the
specification-worded `spec_artifact_url` except on case variants of
`"amd64"`, where it behaves as `spec_artifact_url` does on `"amd64"`
itself; and on `('25.0','wasi-sdk-25','x86_64','Linux')` it returns
exactly the documented URL. -/
theorem c4_amended_url (version tag arch os : String) :
    (pyLower arch ≠ "amd64" →
      calculate_artifact_url version tag arch os =
        spec_artifact_url version tag arch os) ∧
    (pyLower arch = "amd64" →
      calculate_artifact_url version tag arch os =
        spec_artifact_url version tag "amd64" os) ∧
    calculate_artifact_url "25.0" "wasi-sdk-25" "x86_64" "Linux" =
      "https://github.com/WebAssembly/wasi-sdk/releases/download/wasi-sdk-25/wasi-sdk-25.0-x86_64-linux.tar.gz" := by
  refine ⟨?_, ?_, by decide⟩
  · intro h
    have harch : arch ≠ "amd64" := by
      intro he
      rw [he] at h
      exact h (by decide)
    unfold calculate_artifact_url spec_artifact_url
    dsimp only
    rw [if_neg h, if_neg harch]
  · intro h
    unfold calculate_artifact_url spec_artifact_url
    dsimp only
    rw [if_pos h, if_pos rfl]

/-- Witness for the amended C4: agreement with the spec wording on
`"arm64"`/`"Darwin"`, and the `"AMD64"` case behaving as `"amd64"`. -/
theorem c4_amended_url_witness :
    calculate_artifact_url "25.1" "wasi-sdk-25.1" "arm64" "Darwin" =
      spec_artifact_url "25.1" "wasi-sdk-25.1" "arm64" "Darwin" ∧
    calculate_artifact_url "25.0" "wasi-sdk-25" "AMD64" "Linux" =
      spec_artifact_url "25.0" "wasi-sdk-25" "amd64" "Linux" :=
  ⟨(c4_amended_url "25.1" "wasi-sdk-25.1" "arm64" "Darwin").1 (by decide),
   (c4_amended_url "25.0" "wasi-sdk-25" "AMD64" "Linux").2.1 (by decide)⟩

/-- C5: for every version string other than `"latest"` with no `'.'`
character, the returned version is the input with `".0"` appended, and
so the returned version contains a decimal point. -/
theorem c5_append_dot_zero (latestTag version : String)
    (hne : version ≠ "latest") (hdot : '.' ∉ version.data) :
    (calculate_version_and_tag latestTag version).1 = version ++ ".0" ∧
    '.' ∈ ((calculate_version_and_tag latestTag version).1).data := by
  refine ⟨?_, dot_mem_calc_version _ _ hne⟩
  rw [calc_nonlatest _ _ hne]
  dsimp only
  exact if_neg hdot

/-- Witness for C5 at the concrete input `"25"`. -/
theorem c5_append_dot_zero_witness :
    (calculate_version_and_tag "" "25").1 = "25" ++ ".0" ∧
    '.' ∈ ((calculate_version_and_tag "" "25").1).data :=
  c5_append_dot_zero "" "25" (by decide) (by decide)

/-- C10: for every version other than `"latest"` that already contains a
`'.'`, the returned version component is the input unchanged; hence
normalization is idempotent: feeding the returned version back in
returns it unchanged. -/
theorem c10_idempotent (latestTag version : String)
    (hne : version ≠ "latest") :
    ('.' ∈ version.data →
      (calculate_version_and_tag latestTag version).1 = version) ∧
    (calculate_version_and_tag latestTag
        ((calculate_version_and_tag latestTag version).1)).1 =
      (calculate_version_and_tag latestTag version).1 := by
  have hd := dot_mem_calc_version latestTag version hne
  constructor
  · intro h
    rw [calc_nonlatest _ _ hne]
    dsimp only
    exact if_pos h
  · have hne' : (calculate_version_and_tag latestTag version).1 ≠ "latest" := by
      intro he
      rw [he] at hd
      exact absurd hd (by decide)
    rw [calc_nonlatest _ _ hne']
    dsimp only
    exact if_pos hd

/-- C6, counterexample: the claim states that for every tag obtained
from the releases endpoint, the version is derived by removing only the
leading `"wasi-sdk-"` prefix, leaving the rest of the tag intact.  The
code calls `tag.replace('wasi-sdk-', '')`, which removes every
occurrence: on tag `"wasi-sdk-wasi-sdk-25"` it derives `"25"`
(normalized to `"25.0"`), whereas removing only the leading prefix would
leave `"wasi-sdk-25"` (normalized to `"wasi-sdk-25.0"`). -/
theorem c6_counterexample :
    calculate_version_and_tag "wasi-sdk-wasi-sdk-25" "latest" =
      ("25.0", "wasi-sdk-wasi-sdk-25") ∧
    ("25.0" : String) ≠ "wasi-sdk-25.0" := by
  decide

/-- C6 (amended): when the input version is `"latest"`, the version is
derived from the fetched tag by replacing every occurrence of the
substring `"wasi-sdk-"` with the empty string; when the tag is the
prefix `"wasi-sdk-"` followed by a remainder in which that substring
does not occur again (as in every real release tag), this coincides with
removing only the leading prefix. -/
theorem c6_amended_replace_all (rest : String)
    (hno : hasOccurrence "wasi-sdk-".data rest.data = false) :
    pyReplace ("wasi-sdk-" ++ rest) "wasi-sdk-" "" = rest ∧
    (calculate_version_and_tag ("wasi-sdk-" ++ rest) "latest").2 =
      "wasi-sdk-" ++ rest ∧
    ('.' ∈ rest.data →
      (calculate_version_and_tag ("wasi-sdk-" ++ rest) "latest").1 = rest) ∧
    ('.' ∉ rest.data →
      (calculate_version_and_tag ("wasi-sdk-" ++ rest) "latest").1 =
        rest ++ ".0") := by
  have hrep : pyReplace ("wasi-sdk-" ++ rest) "wasi-sdk-" "" = rest := by
    unfold pyReplace
    rw [String.data_append]
    rw [pyReplaceList_cons_occurrence _ _ _ (by decide)]
    rw [pyReplaceList_of_no_occurrence _ _ _
      (no_occurrence_of_hasOccurrence_false _ _ (by decide) hno)]
    rfl
  refine ⟨hrep, ?_, ?_, ?_⟩
  · rw [calc_latest_eq]
  · intro h
    rw [calc_latest_eq]
    dsimp only
    rw [hrep]
    exact if_pos h
  · intro h
    rw [calc_latest_eq]
    dsimp only
    rw [hrep]
    exact if_neg h

/-- Witness for the amended C6 at the concrete remainder `"25.1"`. -/
theorem c6_amended_replace_all_witness :
    pyReplace ("wasi-sdk-" ++ "25.1") "wasi-sdk-" "" = "25.1" ∧
    (calculate_version_and_tag ("wasi-sdk-" ++ "25.1") "latest").2 =
      "wasi-sdk-" ++ "25.1" ∧
    (calculate_version_and_tag ("wasi-sdk-" ++ "25.1") "latest").1 =
      "25.1" :=
  ⟨(c6_amended_replace_all "25.1" (by decide)).1,
   (c6_amended_replace_all "25.1" (by decide)).2.1,
   (c6_amended_replace_all "25.1" (by decide)).2.2.1 (by decide)⟩

/-- C3: during extraction, the entries extracted are exactly the members
whose name has more than one `'/'`-separated segment, in order, each
under the name formed by dropping its first segment and rejoining the
remaining segments with `'/'`; every single-segment member is skipped
(contributes nothing to the extraction). -/
theorem c3_strip_one_component (members : List String) :
    extract_names members =
      (members.filter
        (fun n => (pySplitChar '/' n.data).length > 1)).map
        (fun n =>
          (⟨joinSep '/' ((pySplitChar '/' n.data).drop 1)⟩ : String)) ∧
    ∀ name : String, (pySplitChar '/' name.data).length = 1 →
      stripFirstComponent name = none := by
  constructor
  · induction members with
    | nil => rfl
    | cons m ms ih =>
      show (m :: ms).filterMap stripFirstComponent = _
      rw [List.filterMap_cons]
      by_cases h : (pySplitChar '/' m.data).length > 1
      · have hs : stripFirstComponent m =
            some ⟨joinSep '/' ((pySplitChar '/' m.data).drop 1)⟩ := by
          unfold stripFirstComponent
          rw [if_pos h]
        rw [hs, List.filter_cons_of_pos (by simpa using h), List.map_cons]
        exact congrArg _ ih
      · have hs : stripFirstComponent m = none := by
          unfold stripFirstComponent
          rw [if_neg h]
        rw [hs, List.filter_cons_of_neg (by simpa using h)]
        exact ih
  · intro name h
    unfold stripFirstComponent
    rw [if_neg (by omega)]

/-- Witness for C3 on a concrete member list containing a root entry
(skipped) and a nested entry (renamed). -/
theorem c3_strip_one_component_witness :
    extract_names ["wasi-sdk-25.0/bin/clang", "wasi-sdk-25.0"] =
      ((["wasi-sdk-25.0/bin/clang", "wasi-sdk-25.0"].filter
        (fun n => (pySplitChar '/' n.data).length > 1)).map
        (fun n =>
          (⟨joinSep '/' ((pySplitChar '/' n.data).drop 1)⟩ : String))) ∧
    stripFirstComponent "wasi-sdk-25.0" = none :=
  ⟨(c3_strip_one_component ["wasi-sdk-25.0/bin/clang", "wasi-sdk-25.0"]).1,
   (c3_strip_one_component []).2 "wasi-sdk-25.0" (by decide)⟩

/-- C8: the extraction renaming performs no sanitization: entries whose
remaining segments contain `".."` or are empty are extracted under
exactly those names (`"top/../x"` becomes `"../x"`), and the only
entries mapped to `none` (excluded) are the single-segment ones. -/
theorem c8_no_sanitization :
    stripFirstComponent "top/../x" = some "../x" ∧
    stripFirstComponent "top/../../etc/passwd" = some "../../etc/passwd" ∧
    stripFirstComponent "top//x" = some "/x" ∧
    (∀ name : String, stripFirstComponent name = none →
      (pySplitChar '/' name.data).length ≤ 1) := by
  refine ⟨by decide, by decide, by decide, ?_⟩
  intro name h
  by_contra hgt
  unfold stripFirstComponent at h
  rw [if_pos (by omega)] at h
  exact Option.noConfusion h

/-- Witness for C8: the root entry name is excluded only because it has
a single segment. -/
theorem c8_no_sanitization_witness :
    (pySplitChar '/' ("wasi-sdk-25.0" : String).data).length ≤ 1 :=
  c8_no_sanitization.2.2.2 "wasi-sdk-25.0" (by decide)

/-- Witness for C10 at the concrete input `"25.1"`. -/
theorem c10_idempotent_witness :
    (calculate_version_and_tag "" "25.1").1 = "25.1" ∧
    (calculate_version_and_tag "" ((calculate_version_and_tag "" "25.1").1)).1 =
      (calculate_version_and_tag "" "25.1").1 :=
  ⟨(c10_idempotent "" "25.1" (by decide)).1 (by decide),
   (c10_idempotent "" "25.1" (by decide)).2⟩

/-- Every character of `pyDirname p` is a character of `p`: the dirname
is carved out of `p` by reversing and dropping only. -/
theorem mem_of_mem_pyDirname {c : Char} (p : String)
    (h : c ∈ (pyDirname p).data) : c ∈ p.data := by
  have step : ∀ (l : List Char) (q : Char → Bool),
      c ∈ l.dropWhile q → c ∈ l :=
    fun l q hm => (List.dropWhile_sublist q).subset hm
  unfold pyDirname at h
  dsimp only at h
  by_cases hc : ((p.data.reverse.dropWhile (fun c => c ≠ '/')).reverse ≠ [] ∧
      (p.data.reverse.dropWhile (fun c => c ≠ '/')).reverse.any
        (fun c => c ≠ '/'))
  · rw [if_pos hc] at h
    have h1 : c ∈
        ((p.data.reverse.dropWhile
          (fun c => c ≠ '/')).reverse.reverse.dropWhile
            (fun c => c = '/')).reverse := h
    rw [List.mem_reverse] at h1
    have h2 := step _ _ h1
    rw [List.reverse_reverse] at h2
    have h3 := step _ _ h2
    rw [List.mem_reverse] at h3
    exact h3
  · rw [if_neg hc] at h
    have h1 : c ∈ (p.data.reverse.dropWhile (fun c => c ≠ '/')).reverse := h
    rw [List.mem_reverse] at h1
    have h2 := step _ _ h1
    rw [List.mem_reverse] at h2
    exact h2

/-- C2, counterexample: the claim states that a missing required
environment variable makes the CI export fail before any partial write.
With `GITHUB_PATH` set but `GITHUB_ENV` unset (a required variable for
`write_github_path`), the call fails with a `KeyError` — yet the path
file has already been appended to (`"d/bin"` was written), so a partial
write does occur before the failure. -/
theorem c2_counterexample :
    write_github_path [("GITHUB_PATH", "p"), ("GITHUB_OUTPUT", "o")]
        "d" "25.0" "d/bin/clang" "d/share/wasi-sysroot" ⟨"", "", ""⟩ =
      (.raised (.keyError "GITHUB_ENV"), ⟨"d/bin", "", ""⟩) ∧
    getEnv [("GITHUB_PATH", "p"), ("GITHUB_OUTPUT", "o")]
      "GITHUB_ENV" = none ∧
    ("d/bin" : String) ≠ "" := by
  decide

/-- C2 (amended): if `GITHUB_PATH` is unset, `write_github_path` fails
with the descriptive assertion message and writes nothing; if
`GITHUB_OUTPUT` is unset, `write_github_output` fails with the
descriptive assertion message and writes nothing; but if `GITHUB_PATH`
is set while `GITHUB_ENV` is unset, `write_github_path` raises a bare
`KeyError` only after appending the clang directory to the path file. -/
theorem c2_amended_env_guards (env : EnvT) (d v clang sys : String)
    (st : CIFiles) :
    (getEnv env "GITHUB_PATH" = none →
      write_github_path env d v clang sys st =
        (.raised (.assertionError
          "GITHUB_PATH environment variable must be set"), st)) ∧
    (getEnv env "GITHUB_OUTPUT" = none →
      write_github_output env d v clang sys st =
        (.raised (.assertionError
          "GITHUB_OUTPUT environment variable must be set"), st)) ∧
    (∀ p, getEnv env "GITHUB_PATH" = some p →
      getEnv env "GITHUB_ENV" = none →
      write_github_path env d v clang sys st =
        (.raised (.keyError "GITHUB_ENV"),
         { st with pathFile := st.pathFile ++ pyDirname clang })) := by
  refine ⟨?_, ?_, ?_⟩
  · intro h
    unfold write_github_path
    rw [h]
  · intro h
    unfold write_github_output
    rw [h]
  · intro p hp he
    unfold write_github_path
    rw [hp, he]

/-- Witness for the amended C2 at concrete environments and file
states. -/
theorem c2_amended_env_guards_witness :
    write_github_path [] "d" "25.0" "d/bin/clang" "s" ⟨"", "", ""⟩ =
      (.raised (.assertionError
        "GITHUB_PATH environment variable must be set"), ⟨"", "", ""⟩) ∧
    write_github_output [] "d" "25.0" "d/bin/clang" "s" ⟨"", "", ""⟩ =
      (.raised (.assertionError
        "GITHUB_OUTPUT environment variable must be set"), ⟨"", "", ""⟩) ∧
    write_github_path [("GITHUB_PATH", "p")] "d" "25.0" "d/bin/clang" "s"
        ⟨"", "", ""⟩ =
      (.raised (.keyError "GITHUB_ENV"),
       ⟨"" ++ pyDirname "d/bin/clang", "", ""⟩) :=
  ⟨(c2_amended_env_guards [] "d" "25.0" "d/bin/clang" "s" ⟨"", "", ""⟩).1
    rfl,
   (c2_amended_env_guards [] "d" "25.0" "d/bin/clang" "s" ⟨"", "", ""⟩).2.1
    rfl,
   (c2_amended_env_guards [("GITHUB_PATH", "p")] "d" "25.0" "d/bin/clang"
    "s" ⟨"", "", ""⟩).2.2 "p" rfl rfl⟩

/-- C7: in `main`'s export phase with the add-to-path flag disabled and
`GITHUB_OUTPUT` set, only the output file is appended to; the path file
and env file are unchanged. -/
theorem c7_output_only (env : EnvT) (d v clang sys : String)
    (st : CIFiles) (f : String)
    (hout : getEnv env "GITHUB_OUTPUT" = some f) :
    main_ci_exports false env d v clang sys st =
      (.ok, { st with outputFile := st.outputFile ++
              String.join (github_output_lines d v clang sys) }) ∧
    (main_ci_exports false env d v clang sys st).2.pathFile =
      st.pathFile ∧
    (main_ci_exports false env d v clang sys st).2.envFile =
      st.envFile := by
  have hmain : main_ci_exports false env d v clang sys st =
      (.ok, { st with outputFile := st.outputFile ++
              String.join (github_output_lines d v clang sys) }) := by
    unfold main_ci_exports write_github_output
    rw [hout]
    rfl
  exact ⟨hmain, by rw [hmain], by rw [hmain]⟩

/-- Witness for C7 at a concrete environment and starting file state. -/
theorem c7_output_only_witness :
    main_ci_exports false [("GITHUB_OUTPUT", "o")] "d" "25.0"
        "d/bin/clang" "d/share/wasi-sysroot" ⟨"P", "E", "O"⟩ =
      (.ok, ⟨"P", "E", "O" ++ String.join (github_output_lines "d" "25.0"
        "d/bin/clang" "d/share/wasi-sysroot")⟩) ∧
    (main_ci_exports false [("GITHUB_OUTPUT", "o")] "d" "25.0"
      "d/bin/clang" "d/share/wasi-sysroot" ⟨"P", "E", "O"⟩).2.pathFile =
      "P" ∧
    (main_ci_exports false [("GITHUB_OUTPUT", "o")] "d" "25.0"
      "d/bin/clang" "d/share/wasi-sysroot" ⟨"P", "E", "O"⟩).2.envFile =
      "E" :=
  ⟨(c7_output_only [("GITHUB_OUTPUT", "o")] "d" "25.0" "d/bin/clang"
    "d/share/wasi-sysroot" ⟨"P", "E", "O"⟩ "o" rfl).1,
   (c7_output_only [("GITHUB_OUTPUT", "o")] "d" "25.0" "d/bin/clang"
    "d/share/wasi-sysroot" ⟨"P", "E", "O"⟩ "o" rfl).2.1,
   (c7_output_only [("GITHUB_OUTPUT", "o")] "d" "25.0" "d/bin/clang"
    "d/share/wasi-sysroot" ⟨"P", "E", "O"⟩ "o" rfl).2.2⟩

/-- C9: on the success paths, `write_github_path` appends to the path
file exactly the clang executable's containing directory — no newline is
added (the appended text contains no `'\n'` whenever the clang path
itself does not) — while every line appended to the env file and every
line appended by `write_github_output` to the output file ends in
`'\n'`. -/
theorem c9_newline_discipline (env : EnvT) (d v clang sys : String)
    (st : CIFiles) (pf ef outf : String)
    (hp : getEnv env "GITHUB_PATH" = some pf)
    (he : getEnv env "GITHUB_ENV" = some ef)
    (ho : getEnv env "GITHUB_OUTPUT" = some outf) :
    ((write_github_path env d v clang sys st).2.pathFile =
      st.pathFile ++ pyDirname clang) ∧
    ('\n' ∉ clang.data → '\n' ∉ (pyDirname clang).data) ∧
    ((write_github_path env d v clang sys st).2.envFile =
      st.envFile ++ String.join (github_env_lines d v clang sys)) ∧
    (∀ l ∈ github_env_lines d v clang sys, ∃ t, l = t ++ "\n") ∧
    ((write_github_output env d v clang sys st).2.outputFile =
      st.outputFile ++ String.join (github_output_lines d v clang sys)) ∧
    (∀ l ∈ github_output_lines d v clang sys, ∃ t, l = t ++ "\n") := by
  have hwp : write_github_path env d v clang sys st =
      (.ok, { st with
        pathFile := st.pathFile ++ pyDirname clang,
        envFile := st.envFile ++
          String.join (github_env_lines d v clang sys) }) := by
    unfold write_github_path
    rw [hp, he]
  have hwo : write_github_output env d v clang sys st =
      (.ok, { st with outputFile := st.outputFile ++
              String.join (github_output_lines d v clang sys) }) := by
    unfold write_github_output
    rw [ho]
  refine ⟨by rw [hwp], ?_, by rw [hwp], ?_, by rw [hwo], ?_⟩
  · intro hn hm
    exact hn (mem_of_mem_pyDirname clang hm)
  · intro l hl
    simp only [github_env_lines, List.mem_cons,
      List.not_mem_nil, or_false] at hl
    rcases hl with rfl | rfl | rfl | rfl <;> exact ⟨_, rfl⟩
  · intro l hl
    simp only [github_output_lines, List.mem_cons,
      List.not_mem_nil, or_false] at hl
    rcases hl with rfl | rfl | rfl | rfl <;> exact ⟨_, rfl⟩

/-- Witness for C9 at a concrete environment, arguments and starting
state. -/
theorem c9_newline_discipline_witness :
    ((write_github_path
      [("GITHUB_PATH", "p"), ("GITHUB_ENV", "e"), ("GITHUB_OUTPUT", "o")]
      "d" "25.0" "d/bin/clang" "d/share/wasi-sysroot"
      ⟨"", "", ""⟩).2.pathFile = "" ++ pyDirname "d/bin/clang") ∧
    '\n' ∉ (pyDirname "d/bin/clang").data ∧
    ((write_github_path
      [("GITHUB_PATH", "p"), ("GITHUB_ENV", "e"), ("GITHUB_OUTPUT", "o")]
      "d" "25.0" "d/bin/clang" "d/share/wasi-sysroot"
      ⟨"", "", ""⟩).2.envFile =
      "" ++ String.join (github_env_lines "d" "25.0" "d/bin/clang"
        "d/share/wasi-sysroot")) ∧
    ((write_github_output
      [("GITHUB_PATH", "p"), ("GITHUB_ENV", "e"), ("GITHUB_OUTPUT", "o")]
      "d" "25.0" "d/bin/clang" "d/share/wasi-sysroot"
      ⟨"", "", ""⟩).2.outputFile =
      "" ++ String.join (github_output_lines "d" "25.0" "d/bin/clang"
        "d/share/wasi-sysroot")) :=
  ⟨(c9_newline_discipline
      [("GITHUB_PATH", "p"), ("GITHUB_ENV", "e"), ("GITHUB_OUTPUT", "o")]
      "d" "25.0" "d/bin/clang" "d/share/wasi-sysroot" ⟨"", "", ""⟩
      "p" "e" "o" rfl rfl rfl).1,
   (c9_newline_discipline
      [("GITHUB_PATH", "p"), ("GITHUB_ENV", "e"), ("GITHUB_OUTPUT", "o")]
      "d" "25.0" "d/bin/clang" "d/share/wasi-sysroot" ⟨"", "", ""⟩
      "p" "e" "o" rfl rfl rfl).2.1 (by decide),
   (c9_newline_discipline
      [("GITHUB_PATH", "p"), ("GITHUB_ENV", "e"), ("GITHUB_OUTPUT", "o")]
      "d" "25.0" "d/bin/clang" "d/share/wasi-sysroot" ⟨"", "", ""⟩
      "p" "e" "o" rfl rfl rfl).2.2.1,
   (c9_newline_discipline
      [("GITHUB_PATH", "p"), ("GITHUB_ENV", "e"), ("GITHUB_OUTPUT", "o")]
      "d" "25.0" "d/bin/clang" "d/share/wasi-sysroot" ⟨"", "", ""⟩
      "p" "e" "o" rfl rfl rfl).2.2.2.2.1⟩

end InstallWasiSdk
